import Mathlib

/-!
Verification of the PPO-RNN training engine of this repository against its
natural-language specification.

The definitions below are shallow embeddings of the Python source:
* `src/project_name/agents/PPO_RNN/PPO_RNN.py` (GAE, the epoch/minibatch
  shuffle, the loss masking, the learning-rate schedule, `update`),
* `src/project_name/agents/PPO/network.py` (`ActorCriticRNN.__call__`),
* `src/project_name/envs/AYS_JAX.py` and
  `src/src/envs/AYS/AYS_Environment_MultiAgent.py` (`get_reward_function`),
* `src/project_name/environment_loop.py` (`run_train`).

Machine floats are modelled by `ℚ` (the properties at stake are exact
recurrences and dataflow, not rounding), boolean flags by `Bool` with the
cast `boolToQ` where the source does float arithmetic on them, and arrays
by (nested) lists in the same axis order as the source.
-/

/-- Cast of a boolean flag to a number, as jax does implicitly in
`1 - done`. -/
def boolToQ (b : Bool) : ℚ := if b then 1 else 0

/-- One transition of the rollout, per (agent, environment) slot: the fields
of `utils.Transition` as constructed in `environment_loop.py` lines 80-89.
`global_done` is the broadcast `done["__all__"]` flag, `done` the per-agent
flag (`done_batch`). -/
structure Transition where
  global_done : Bool
  done : Bool
  action : ℤ
  value : ℚ
  reward : ℚ
  log_prob : ℚ
  obs : List ℚ
  deriving Repr, DecidableEq

/-- `jax.lax.scan` with `reverse=True`: the carry is threaded from the last
element to the first, and the stacked outputs keep the original order. -/
def scanRev (f : σ → α → σ × β) (init : σ) : List α → σ × List β
  | [] => (init, [])
  | x :: xs =>
    let r := scanRev f init xs
    let s := f r.1 x
    (s.1, s.2 :: r.2)

/-- The body `_get_advantages` of `_calculate_gae`
(`PPO_RNN.py` lines 75-84): carry `(gae, next_value)`, done flag read from
`transition.global_done`. -/
def getAdvantagesStep (gamma gaeLambda : ℚ) (carry : ℚ × ℚ) (t : Transition) :
    (ℚ × ℚ) × ℚ :=
  let delta := t.reward + gamma * carry.2 * (1 - boolToQ t.global_done) - t.value
  let gae := delta + gamma * gaeLambda * (1 - boolToQ t.global_done) * carry.1
  ((gae, t.value), gae)

/-- `_calculate_gae` (`PPO_RNN.py` lines 74-92), advantage output: reverse
scan initialised with `(0, last_val)`. -/
def calculateGae (gamma gaeLambda : ℚ) (traj : List Transition) (lastVal : ℚ) :
    List ℚ :=
  (scanRev (getAdvantagesStep gamma gaeLambda) (0, lastVal) traj).2

/-- `_calculate_gae`, target output: `advantages + traj_batch.value`
(`PPO_RNN.py` line 92). -/
def calculateTargets (gamma gaeLambda : ℚ) (traj : List Transition)
    (lastVal : ℚ) : List ℚ :=
  List.zipWith (· + ·) (calculateGae gamma gaeLambda traj lastVal)
    (traj.map Transition.value)

lemma scanRev_length (f : σ → α → σ × β) (init : σ) (xs : List α) :
    (scanRev f init xs).2.length = xs.length := by
  induction xs with
  | nil => rfl
  | cons x xs ih => simp [scanRev, ih]

/-- The carry left by the reverse scan over a suffix is the advantage of the
suffix's first transition (or `0`) paired with that transition's value
(or the bootstrap value). -/
lemma calculateGae_carry (gamma gaeLambda : ℚ) (traj : List Transition)
    (lastVal : ℚ) :
    (scanRev (getAdvantagesStep gamma gaeLambda) (0, lastVal) traj).1 =
      ((calculateGae gamma gaeLambda traj lastVal).headD 0,
        ((traj.head?.map Transition.value).getD lastVal)) := by
  cases traj with
  | nil => rfl
  | cons x xs => simp [calculateGae, scanRev, getAdvantagesStep]

lemma getD_zipWith_add (xs ys : List ℚ) (h : xs.length = ys.length) (t : ℕ) :
    (List.zipWith (· + ·) xs ys).getD t 0 = xs.getD t 0 + ys.getD t 0 := by
  induction xs generalizing ys t with
  | nil =>
    cases ys with
    | nil => simp
    | cons y ys => simp at h
  | cons x xs ih =>
    cases ys with
    | nil => simp at h
    | cons y ys =>
      cases t with
      | zero => simp
      | succ t =>
        simp only [List.zipWith, List.getD_cons_succ]
        exact ih ys (by simpa using h) t

/-- The trajectory of the spec's §8 scenario: length 4, rewards `[1,1,1,1]`,
done false at every step except the last, values left symbolic. -/
def c1Traj (v0 v1 v2 v3 : ℚ) : List Transition :=
  [⟨false, false, 0, v0, 1, 0, []⟩,
   ⟨false, false, 0, v1, 1, 0, []⟩,
   ⟨false, false, 0, v2, 1, 0, []⟩,
   ⟨true, true, 0, v3, 1, 0, []⟩]

/-- C1: `_calculate_gae` processes the transitions in reverse temporal order
with `delta = reward + gamma*next_value*(1-done) - value`,
`gae = delta + gamma*lambda*(1-done)*gae_prev`, initialised with
`gae_prev = 0` and `next_value` = the bootstrap value (both defaults are
visible in the head cases below), and returns `target = gae + value` at every
timestep; for the single-environment single-agent scenario of length 4 with
rewards `[1,1,1,1]`, done false except at the last step, `gamma = 0.99`,
`lambda = 0.95`, the computed advantages satisfy that reverse recursion
exactly. -/
theorem C1_gae_reverse_recurrence :
    (∀ (gamma lam lastVal : ℚ) (x : Transition) (xs : List Transition),
      calculateGae gamma lam (x :: xs) lastVal =
        (x.reward
          + gamma * ((xs.head?.map Transition.value).getD lastVal)
              * (1 - boolToQ x.global_done)
          - x.value
          + gamma * lam * (1 - boolToQ x.global_done)
              * ((calculateGae gamma lam xs lastVal).headD 0))
          :: calculateGae gamma lam xs lastVal)
    ∧ (∀ (gamma lam lastVal : ℚ) (traj : List Transition) (t : ℕ),
        (calculateTargets gamma lam traj lastVal).getD t 0 =
          (calculateGae gamma lam traj lastVal).getD t 0
            + (traj.map Transition.value).getD t 0)
    ∧ (∀ (b v0 v1 v2 v3 : ℚ),
        (calculateGae (99/100) (95/100) (c1Traj v0 v1 v2 v3) b).getD 3 0 =
            1 + (99/100) * b * (1 - 1) - v3
              + (99/100) * (95/100) * (1 - 1) * 0
        ∧ (calculateGae (99/100) (95/100) (c1Traj v0 v1 v2 v3) b).getD 2 0 =
            1 + (99/100) * v3 * (1 - 0) - v2
              + (99/100) * (95/100) * (1 - 0)
                * (calculateGae (99/100) (95/100) (c1Traj v0 v1 v2 v3) b).getD 3 0
        ∧ (calculateGae (99/100) (95/100) (c1Traj v0 v1 v2 v3) b).getD 1 0 =
            1 + (99/100) * v2 * (1 - 0) - v1
              + (99/100) * (95/100) * (1 - 0)
                * (calculateGae (99/100) (95/100) (c1Traj v0 v1 v2 v3) b).getD 2 0
        ∧ (calculateGae (99/100) (95/100) (c1Traj v0 v1 v2 v3) b).getD 0 0 =
            1 + (99/100) * v1 * (1 - 0) - v0
              + (99/100) * (95/100) * (1 - 0)
                * (calculateGae (99/100) (95/100) (c1Traj v0 v1 v2 v3) b).getD 1 0
        ∧ (calculateGae (99/100) (95/100) (c1Traj v0 v1 v2 v3) b).length = 4) := by
  refine ⟨?_, ?_, ?_⟩
  · intro gamma lam lastVal x xs
    simp only [calculateGae, scanRev]
    rw [calculateGae_carry]
    rfl
  · intro gamma lam lastVal traj t
    unfold calculateTargets
    refine getD_zipWith_add _ _ ?_ t
    simp [calculateGae, scanRev_length]
  · intro b v0 v1 v2 v3
    refine ⟨?_, ?_, ?_, ?_, ?_⟩ <;>
      simp [calculateGae, scanRev, getAdvantagesStep, boolToQ, c1Traj]

/-- Modelled from the spec: the §4.4 recurrence read with the spec's claim
that `done` is the per-agent done flag — identical to `getAdvantagesStep`
except that it reads `transition.done` instead of `transition.global_done`.
Used only as the comparison point for the spec's wording. -/
def getAdvantagesStepPerAgentDone (gamma gaeLambda : ℚ) (carry : ℚ × ℚ)
    (t : Transition) : (ℚ × ℚ) × ℚ :=
  let delta := t.reward + gamma * carry.2 * (1 - boolToQ t.done) - t.value
  let gae := delta + gamma * gaeLambda * (1 - boolToQ t.done) * carry.1
  ((gae, t.value), gae)

/-- Modelled from the spec: GAE computed with the per-agent done flag. -/
def calculateGaePerAgentDone (gamma gaeLambda : ℚ) (traj : List Transition)
    (lastVal : ℚ) : List ℚ :=
  (scanRev (getAdvantagesStepPerAgentDone gamma gaeLambda) (0, lastVal) traj).2

/-- C3 counterexample: a one-step trajectory whose per-agent done flag is
true while the episode-level `done["__all__"]` flag is false. `_calculate_gae`
reads `transition.global_done`, so the bootstrap term `gamma * last_val` is
NOT zeroed (advantage `0.99`), while the spec's per-agent reading would zero
it (advantage `0`). -/
theorem C3_gae_done_flag_counterexample :
    calculateGae (99/100) (95/100)
        [⟨false, true, 0, 0, 0, 0, []⟩] 1 = [99/100]
      ∧ calculateGaePerAgentDone (99/100) (95/100)
          [⟨false, true, 0, 0, 0, 0, []⟩] 1 = [0]
      ∧ calculateGae (99/100) (95/100)
            [⟨false, true, 0, 0, 0, 0, []⟩] 1 ≠
          calculateGaePerAgentDone (99/100) (95/100)
            [⟨false, true, 0, 0, 0, 0, []⟩] 1 := by
  have h1 : calculateGae (99/100) (95/100)
      [⟨false, true, 0, 0, 0, 0, []⟩] 1 = [99/100] := by
    norm_num [calculateGae, scanRev, getAdvantagesStep, boolToQ]
  have h2 : calculateGaePerAgentDone (99/100) (95/100)
      [⟨false, true, 0, 0, 0, 0, []⟩] 1 = [0] := by
    norm_num [calculateGaePerAgentDone, scanRev,
      getAdvantagesStepPerAgentDone, boolToQ]
  refine ⟨h1, h2, ?_⟩
  rw [h1, h2]
  norm_num

/-- C3 (amended): the done flag used inside the GAE recurrence is the
episode-level `transition.global_done` (the broadcast `done["__all__"]`
flag), not the per-agent flag: the advantages computed by `_calculate_gae`
are invariant under arbitrary rewrites of every field of each transition
other than `global_done`, `value` and `reward` — in particular under
arbitrary rewrites of the per-agent `done` flag. -/
theorem C3_gae_uses_global_done (gamma gaeLambda lastVal : ℚ)
    (traj : List Transition) (g : Transition → Transition)
    (h : ∀ t : Transition, (g t).global_done = t.global_done ∧
      (g t).value = t.value ∧ (g t).reward = t.reward) :
    calculateGae gamma gaeLambda (traj.map g) lastVal =
      calculateGae gamma gaeLambda traj lastVal := by
  unfold calculateGae
  suffices hs : scanRev (getAdvantagesStep gamma gaeLambda) (0, lastVal)
      (traj.map g) =
      scanRev (getAdvantagesStep gamma gaeLambda) (0, lastVal) traj by
    rw [hs]
  induction traj with
  | nil => rfl
  | cons x xs ih =>
    simp only [List.map_cons, scanRev, ih]
    have hx := h x
    simp [getAdvantagesStep, hx.1, hx.2.1, hx.2.2]

/-- Witness for C3's amended theorem: flipping the per-agent done flag of
the counterexample transition leaves the computed advantages unchanged. -/
theorem C3_gae_uses_global_done_witness :
    calculateGae (99/100) (95/100)
        (([⟨false, true, 0, 0, 0, 0, []⟩] : List Transition).map
          (fun t => { t with done := !t.done })) 1 =
      calculateGae (99/100) (95/100) [⟨false, true, 0, 0, 0, 0, []⟩] 1 :=
  C3_gae_uses_global_done (99/100) (95/100) 1
    [⟨false, true, 0, 0, 0, 0, []⟩] (fun t => { t with done := !t.done })
    (fun _ => ⟨rfl, rfl, rfl⟩)

/-- A flax `nn.Dense` layer: affine map `W·x + b`, rows of `W` paired with
the entries of `b`. -/
def dense (w : List (List ℚ)) (b : List ℚ) (x : List ℚ) : List ℚ :=
  List.zipWith (fun row bi => (List.zipWith (· * ·) row x).sum + bi) w b

/-- `nn.relu`, the one concrete activation of `network.py` expressible over
`ℚ`; the default branch (`tanh`) is kept abstract via the `act` parameter of
`actorCriticRNNCall`. -/
def reluQ (x : ℚ) : ℚ := max 0 x

/-- The parameters of the six `nn.Dense` layers of
`src/project_name/agents/PPO/network.py` (two embedding layers, the policy
head, two critic layers, the value head). -/
structure ACParams where
  w1 : List (List ℚ)
  b1 : List ℚ
  w2 : List (List ℚ)
  b2 : List ℚ
  wa : List (List ℚ)
  ba : List ℚ
  wc1 : List (List ℚ)
  bc1 : List ℚ
  wc2 : List (List ℚ)
  bc2 : List ℚ
  wv : List (List ℚ)
  bv : List ℚ

/-- `ActorCriticRNN.__call__` of `src/project_name/agents/PPO/network.py`
lines 18-40, for one observation vector: unpacks `(obs, dones)`, builds the
policy logits from two activated dense layers on `obs`, the scalar value
from two activated dense layers on `obs` followed by a squeezed `Dense(1)`,
and returns the tuple `(hidden, pi, value)` — `hidden` and `dones` are
never touched by the body. -/
def actorCriticRNNCall (act : ℚ → ℚ) (p : ACParams) (hidden : List ℚ)
    (obs : List ℚ) (dones : Bool) : List ℚ × List ℚ × ℚ :=
  let embedding := (dense p.w1 p.b1 obs).map act
  let embedding2 := (dense p.w2 p.b2 embedding).map act
  let actorMean := dense p.wa p.ba embedding2
  let critic := (dense p.wc1 p.bc1 obs).map act
  let critic2 := (dense p.wc2 p.bc2 critic).map act
  let value := (dense p.wv p.bv critic2).headD 0
  (hidden, actorMean, value)

/-- All-zero 1×1 parameters, enough to evaluate the network concretely. -/
def acParamsZero : ACParams :=
  ⟨[[0]], [0], [[0]], [0], [[0]], [0], [[0]], [0], [[0]], [0], [[0]], [0]⟩

/-- C5 counterexample: with `agent_done = true` the claim forces the
returned hidden state to be the recurrent-cell output of a zeroed hidden
state — hence independent of the incoming hidden state. The code instead
returns the incoming hidden state unchanged: two calls differing only in
the hidden state (both with `agent_done = true`) return their respective
inputs, which differ. -/
theorem C5_network_counterexample :
    (actorCriticRNNCall reluQ acParamsZero [1] [0] true).1 = [1]
      ∧ (actorCriticRNNCall reluQ acParamsZero [2] [0] true).1 = [2]
      ∧ ([1] : List ℚ) ≠ [2] := by
  refine ⟨rfl, rfl, ?_⟩
  norm_num

/-- C5 (amended): the actor-critic network of
`src/project_name/agents/PPO/network.py` never resets the hidden state and
applies no recurrent cell: for every activation, parameter set and input it
returns the incoming hidden state unchanged, ignoring `agent_done`, and the
policy logits and value are feed-forward functions of the observation
alone. -/
theorem C5_network_returns_hidden_unchanged (act : ℚ → ℚ) (p : ACParams)
    (hidden hidden' : List ℚ) (obs : List ℚ) (dones dones' : Bool) :
    (actorCriticRNNCall act p hidden obs dones).1 = hidden
      ∧ (actorCriticRNNCall act p hidden obs dones).2 =
          (actorCriticRNNCall act p hidden' obs dones').2 :=
  ⟨rfl, rfl⟩

/-- `linear_schedule` (`PPO_RNN.py` lines 30-32): `//` is Python floor
division (`Nat.div` on the non-negative step count), the outer division is
float division. -/
def linearSchedule (lr : ℚ) (numMinibatches updateEpochs numUpdates : ℕ)
    (count : ℕ) : ℚ :=
  lr * (1 - ((count / (numMinibatches * updateEpochs) : ℕ) : ℚ) /
    (numUpdates : ℚ))

/-- C7: with `ANNEAL_LR` the learning rate
`LR * (1 - (count // (NUM_MINIBATCHES*UPDATE_EPOCHS)) / NUM_UPDATES)` is
non-increasing in the optimizer-step count and is exactly zero at
`count = NUM_MINIBATCHES * UPDATE_EPOCHS * NUM_UPDATES`. -/
theorem C7_linear_schedule_anneals_to_zero (lr : ℚ)
    (numMinibatches updateEpochs numUpdates : ℕ) (hlr : 0 ≤ lr)
    (hmu : 0 < numMinibatches * updateEpochs) (hn : 0 < numUpdates) :
    (∀ c1 c2 : ℕ, c1 ≤ c2 →
        linearSchedule lr numMinibatches updateEpochs numUpdates c2 ≤
          linearSchedule lr numMinibatches updateEpochs numUpdates c1)
      ∧ linearSchedule lr numMinibatches updateEpochs numUpdates
          (numMinibatches * updateEpochs * numUpdates) = 0 := by
  constructor
  · intro c1 c2 hc
    have hdiv : c1 / (numMinibatches * updateEpochs) ≤
        c2 / (numMinibatches * updateEpochs) := Nat.div_le_div_right hc
    have hq : ((c1 / (numMinibatches * updateEpochs) : ℕ) : ℚ) ≤
        ((c2 / (numMinibatches * updateEpochs) : ℕ) : ℚ) := by
      exact_mod_cast hdiv
    have hnq : (0 : ℚ) < (numUpdates : ℚ) := by exact_mod_cast hn
    unfold linearSchedule
    apply mul_le_mul_of_nonneg_left _ hlr
    apply sub_le_sub_left
    exact (div_le_div_right hnq).mpr hq
  · unfold linearSchedule
    rw [Nat.mul_div_cancel_left _ hmu]
    have hnq : ((numUpdates : ℚ)) ≠ 0 := by
      exact_mod_cast hn.ne'
    rw [div_self hnq]
    ring

/-- Witness for C7 at `LR = 1`, `NUM_MINIBATCHES = 2`, `UPDATE_EPOCHS = 2`,
`NUM_UPDATES = 3`. -/
theorem C7_linear_schedule_anneals_to_zero_witness :
    linearSchedule 1 2 2 3 (2 * 2 * 3) = 0
      ∧ linearSchedule 1 2 2 3 7 ≤ linearSchedule 1 2 2 3 5 :=
  ⟨(C7_linear_schedule_anneals_to_zero 1 2 2 3 (by norm_num) (by norm_num)
      (by norm_num)).2,
   (C7_linear_schedule_anneals_to_zero 1 2 2 3 (by norm_num) (by norm_num)
      (by norm_num)).1 5 7 (by norm_num)⟩

/-- The per-agent reward computations of `AYS_JAX.get_reward_function`
(the inner functions `reward_distance_PB`, `incentivised_reward_distance_PB`,
`reward_distance_Y`, `reward_distance_E`, `reward_distance_A`), abstract
here: the dispatched computation, indexed by the agent. -/
structure AYSRewardFns where
  pb : ℕ → ℚ
  ipb : ℕ → ℚ
  maxY : ℕ → ℚ
  maxE : ℕ → ℚ
  maxA : ℕ → ℚ

/-- The selector strings recognised by `AYS_JAX.get_reward_function`
(lines 307-317). -/
def aysJaxSelectors : List String := ["PB", "IPB", "max_Y", "max_E", "max_A"]

/-- The dispatch chain of `AYS_JAX.get_reward_function` lines 307-325 for
one agent: the `elif` ladder on `self.reward_type[agent]`, with `exit(1)`
for `None` and `sys.exit(1)` for any other unknown selector, both modelled
as `Except.error 1` (process exit with status 1). -/
def dispatchAYSJax (fns : AYSRewardFns) (agent : ℕ) (rt : Option String) :
    Except ℕ ℚ :=
  if rt = some "PB" then .ok (fns.pb agent)
  else if rt = some "IPB" then .ok (fns.ipb agent)
  else if rt = some "max_Y" then .ok (fns.maxY agent)
  else if rt = some "max_E" then .ok (fns.maxE agent)
  else if rt = some "max_A" then .ok (fns.maxA agent)
  else if rt = none then .error 1
  else .error 1

/-- The `for agent in range(self.num_agents)` loop of
`AYS_JAX.get_reward_function`: dispatch each agent in order, aborting the
process at the first failing dispatch. -/
def getRewardFunctionAYSJax (fns : AYSRewardFns) (agent : ℕ) :
    List (Option String) → Except ℕ (List ℚ)
  | [] => .ok []
  | rt :: rest =>
    match dispatchAYSJax fns agent rt with
    | .error c => .error c
    | .ok r =>
      match getRewardFunctionAYSJax fns (agent + 1) rest with
      | .error c => .error c
      | .ok rs => .ok (r :: rs)

/-- The per-agent reward computations of
`AYS_Environment_MultiAgent.get_reward_function`, abstract. -/
structure MARewardFns where
  finalState : ℕ → ℚ
  renKnowledge : ℕ → ℚ
  desirableRegion : ℕ → ℚ
  pb : ℕ → ℚ
  pbNew : ℕ → ℚ
  pbExt : ℕ → ℚ
  survive : ℕ → ℚ
  surviveCost : ℕ → ℚ
  policyCost : ℕ → ℚ
  simple : ℕ → ℚ

/-- The selector strings recognised by
`AYS_Environment_MultiAgent.get_reward_function` (lines 337-357). -/
def maSelectors : List String :=
  ["final_state", "ren_knowledge", "desirable_region", "PB", "PB_new",
   "PB_ext", "survive", "survive_cost", "policy_cost", "simple"]

/-- The dispatch chain of `AYS_Environment_MultiAgent.get_reward_function`
lines 337-364 for one agent. -/
def dispatchAYSMulti (fns : MARewardFns) (agent : ℕ) (rt : Option String) :
    Except ℕ ℚ :=
  if rt = some "final_state" then .ok (fns.finalState agent)
  else if rt = some "ren_knowledge" then .ok (fns.renKnowledge agent)
  else if rt = some "desirable_region" then .ok (fns.desirableRegion agent)
  else if rt = some "PB" then .ok (fns.pb agent)
  else if rt = some "PB_new" then .ok (fns.pbNew agent)
  else if rt = some "PB_ext" then .ok (fns.pbExt agent)
  else if rt = some "survive" then .ok (fns.survive agent)
  else if rt = some "survive_cost" then .ok (fns.surviveCost agent)
  else if rt = some "policy_cost" then .ok (fns.policyCost agent)
  else if rt = some "simple" then .ok (fns.simple agent)
  else if rt = none then .error 1
  else .error 1

/-- The agent loop of `AYS_Environment_MultiAgent.get_reward_function`. -/
def getRewardFunctionAYSMulti (fns : MARewardFns) (agent : ℕ) :
    List (Option String) → Except ℕ (List ℚ)
  | [] => .ok []
  | rt :: rest =>
    match dispatchAYSMulti fns agent rt with
    | .error c => .error c
    | .ok r =>
      match getRewardFunctionAYSMulti fns (agent + 1) rest with
      | .error c => .error c
      | .ok rs => .ok (r :: rs)

set_option maxHeartbeats 1000000 in
lemma dispatchAYSJax_error_code (fns : AYSRewardFns) (agent : ℕ)
    (rt : Option String) (c : ℕ) (h : dispatchAYSJax fns agent rt = .error c) :
    c = 1 := by
  unfold dispatchAYSJax at h
  split_ifs at h <;>
    first
      | exact (Except.noConfusion h)
      | exact (Except.error.inj h).symm

set_option maxHeartbeats 2000000 in
lemma dispatchAYSMulti_error_code (fns : MARewardFns) (agent : ℕ)
    (rt : Option String) (c : ℕ)
    (h : dispatchAYSMulti fns agent rt = .error c) : c = 1 := by
  unfold dispatchAYSMulti at h
  split_ifs at h <;>
    first
      | exact (Except.noConfusion h)
      | exact (Except.error.inj h).symm

lemma dispatchAYSJax_unknown (fns : AYSRewardFns) (agent : ℕ) (s : String)
    (h : s ∉ aysJaxSelectors) :
    dispatchAYSJax fns agent (some s) = .error 1 := by
  simp only [aysJaxSelectors, List.mem_cons, List.not_mem_nil, or_false,
    not_or] at h
  obtain ⟨h1, h2, h3, h4, h5⟩ := h
  simp [dispatchAYSJax, h1, h2, h3, h4, h5]

lemma getRewardFunctionAYSJax_unknown (fns : AYSRewardFns) (agent : ℕ)
    (pre post : List (Option String)) (s : String)
    (h : s ∉ aysJaxSelectors) :
    getRewardFunctionAYSJax fns agent (pre ++ some s :: post) = .error 1 := by
  induction pre generalizing agent with
  | nil =>
    simp only [List.nil_append, getRewardFunctionAYSJax]
    rw [dispatchAYSJax_unknown fns agent s h]
  | cons rt pre ih =>
    simp only [List.cons_append, getRewardFunctionAYSJax]
    cases hd : dispatchAYSJax fns agent rt with
    | error c => simp [dispatchAYSJax_error_code fns agent rt c hd]
    | ok r => simp [ih (agent + 1)]

lemma dispatchAYSMulti_unknown (fns : MARewardFns) (agent : ℕ) (s : String)
    (h : s ∉ maSelectors) :
    dispatchAYSMulti fns agent (some s) = .error 1 := by
  simp only [maSelectors, List.mem_cons, List.not_mem_nil, or_false,
    not_or] at h
  obtain ⟨h1, h2, h3, h4, h5, h6, h7, h8, h9, h10⟩ := h
  simp [dispatchAYSMulti, h1, h2, h3, h4, h5, h6, h7, h8, h9, h10]

lemma getRewardFunctionAYSMulti_unknown (fns : MARewardFns) (agent : ℕ)
    (pre post : List (Option String)) (s : String)
    (h : s ∉ maSelectors) :
    getRewardFunctionAYSMulti fns agent (pre ++ some s :: post) = .error 1 := by
  induction pre generalizing agent with
  | nil =>
    simp only [List.nil_append, getRewardFunctionAYSMulti]
    rw [dispatchAYSMulti_unknown fns agent s h]
  | cons rt pre ih =>
    simp only [List.cons_append, getRewardFunctionAYSMulti]
    cases hd : dispatchAYSMulti fns agent rt with
    | error c => simp [dispatchAYSMulti_error_code fns agent rt c hd]
    | ok r => simp [ih (agent + 1)]

/-- C8: in both environment implementations, an agent whose configured
reward-type string is not a recognised selector (and is not `None`) makes
the reward dispatch terminate the process with a fatal `exit(1)` /
`sys.exit(1)`: the per-agent dispatch returns `error 1` (never a reward),
and the whole `get_reward_function` loop aborts with `error 1` however many
well-configured agents precede or follow it — there is no retry path. -/
theorem C8_unknown_reward_selector_fatal :
    (∀ (fns : AYSRewardFns) (agent : ℕ) (s : String), s ∉ aysJaxSelectors →
        dispatchAYSJax fns agent (some s) = .error 1)
      ∧ (∀ (fns : AYSRewardFns) (agent : ℕ)
          (pre post : List (Option String)) (s : String),
          s ∉ aysJaxSelectors →
            getRewardFunctionAYSJax fns agent (pre ++ some s :: post) =
              .error 1)
      ∧ (∀ (fns : MARewardFns) (agent : ℕ) (s : String), s ∉ maSelectors →
          dispatchAYSMulti fns agent (some s) = .error 1)
      ∧ (∀ (fns : MARewardFns) (agent : ℕ)
          (pre post : List (Option String)) (s : String),
          s ∉ maSelectors →
            getRewardFunctionAYSMulti fns agent (pre ++ some s :: post) =
              .error 1) :=
  ⟨dispatchAYSJax_unknown, getRewardFunctionAYSJax_unknown,
   dispatchAYSMulti_unknown, getRewardFunctionAYSMulti_unknown⟩

/-- All-zero reward computations, enough to evaluate the dispatchers. -/
def aysFnsZero : AYSRewardFns :=
  ⟨fun _ => 0, fun _ => 0, fun _ => 0, fun _ => 0, fun _ => 0⟩

/-- All-zero reward computations for the multi-agent environment. -/
def maFnsZero : MARewardFns :=
  ⟨fun _ => 0, fun _ => 0, fun _ => 0, fun _ => 0, fun _ => 0,
   fun _ => 0, fun _ => 0, fun _ => 0, fun _ => 0, fun _ => 0⟩

/-- Witness for C8: the selector `"bogus"` kills both dispatchers, also when
a well-configured agent precedes it. -/
theorem C8_unknown_reward_selector_fatal_witness :
    dispatchAYSJax aysFnsZero 0 (some "bogus") = .error 1
      ∧ getRewardFunctionAYSJax aysFnsZero 0
          ([some "PB"] ++ some "bogus" :: []) = .error 1
      ∧ dispatchAYSMulti maFnsZero 0 (some "bogus") = .error 1
      ∧ getRewardFunctionAYSMulti maFnsZero 0
          ([some "simple"] ++ some "bogus" :: []) = .error 1 :=
  ⟨C8_unknown_reward_selector_fatal.1 aysFnsZero 0 "bogus" (by decide),
   C8_unknown_reward_selector_fatal.2.1 aysFnsZero 0 [some "PB"] [] "bogus"
     (by decide),
   C8_unknown_reward_selector_fatal.2.2.1 maFnsZero 0 "bogus" (by decide),
   C8_unknown_reward_selector_fatal.2.2.2 maFnsZero 0 [some "simple"] []
     "bogus" (by decide)⟩

/-- `jnp.swapaxes(x, 0, 1)`: exchange of the outer two axes of a
rectangular nested-list array. -/
def swapaxes01 (x : List (List α)) : List (List α) := x.transpose

/-- `jnp.take(m, perm, axis=0)` along one axis with jnp's default
out-of-bounds mode `"clip"`. -/
def gatherClip (d : α) (perm : List ℕ) (m : List α) : List α :=
  perm.map (fun i => m.getD (min i (m.length - 1)) d)

/-- `jnp.take(x, perm, axis=1)`: gather applied inside the outermost
axis. -/
def takeAxis1 (d : α) (perm : List ℕ) (x : List (List α)) : List (List α) :=
  x.map (gatherClip d perm)

/-- `_update_epoch` lines 150+155 applied to one trajectory leaf of shape
`(NUM_STEPS, num_agents, NUM_ENVS)` (the stacking order produced by the
`jax.lax.scan` over `_run_episode_step`):
`jnp.take(jnp.swapaxes(x, 0, 1), permutation, axis=1)`. -/
def shuffleTrajLeaf (perm : List ℕ) (x : List (List (List α))) :
    List (List (List α)) :=
  takeAxis1 ([] : List α) perm (swapaxes01 x)

/-- `_update_epoch` lines 153+155 applied to the advantage/target leaves
(shape `(NUM_STEPS, 1, NUM_ENVS)` for the single-agent path):
`jnp.take(jnp.swapaxes(x, 0, 1).squeeze(), permutation, axis=1)` — the
`squeeze` drops the leading unit agent axis. -/
def shuffleAdvLeaf (perm : List ℕ) (x : List (List (List ℚ))) :
    List (List ℚ) :=
  takeAxis1 (0 : ℚ) perm ((swapaxes01 x).headD [])

/-- `_update_epoch` lines 147+155 applied to the initial hidden state
(shape `(NUM_ENVS, GRU_HIDDEN_DIM)`): reshape to `(1, NUM_ENVS, -1)` and
gather `axis=1`. -/
def shuffleHstate (perm : List ℕ) (h : List (List ℚ)) :
    List (List (List ℚ)) :=
  takeAxis1 ([] : List ℚ) perm [h]

/-- Modelled from the spec (§4.5a-b): apply the permutation to the
environment axis only — the innermost axis of a `(T, A, E)` leaf — laid out
in the code's post-swap `(A, T, E)` order for comparison. -/
def specEnvShuffleTrajLeaf (perm : List ℕ) (x : List (List (List ℚ))) :
    List (List (List ℚ)) :=
  swapaxes01 (x.map (fun m => m.map (gatherClip (0 : ℚ) perm)))

/-- C2 at a failing input (`NUM_STEPS = 2`, `num_agents = 1`,
`NUM_ENVS = 2`, `permutation = [1, 0]`): the code's
`take(swapaxes(traj, 0, 1), permutation, axis=1)` gathers along the
trajectory's TIME axis (timestep order per environment becomes `[2,3]`
before `[0,1]`, i.e. reversed), while the same permutation is applied to
the ENVIRONMENT axis of the advantages and hidden state — so the claim
fails and the shuffled trajectory is misaligned with its advantages. -/
theorem C2_env_permutation_hits_time_axis :
    shuffleTrajLeaf [1, 0] [[[(0 : ℚ), 1]], [[2, 3]]] = [[[2, 3], [0, 1]]]
      ∧ specEnvShuffleTrajLeaf [1, 0] [[[(0 : ℚ), 1]], [[2, 3]]] =
          [[[1, 0], [3, 2]]]
      ∧ shuffleTrajLeaf [1, 0] [[[(0 : ℚ), 1]], [[2, 3]]] ≠
          specEnvShuffleTrajLeaf [1, 0] [[[(0 : ℚ), 1]], [[2, 3]]]
      ∧ shuffleAdvLeaf [1, 0] [[[(10 : ℚ), 11]], [[12, 13]]] =
          [[11, 10], [13, 12]]
      ∧ shuffleHstate [1, 0] [[(5 : ℚ)], [7]] = [[[7], [5]]] := by
  refine ⟨rfl, rfl, ?_, rfl, rfl⟩
  intro hcontra
  rw [show shuffleTrajLeaf [1, 0] [[[(0 : ℚ), 1]], [[2, 3]]] =
        [[[2, 3], [0, 1]]] from rfl,
      show specEnvShuffleTrajLeaf [1, 0] [[[(0 : ℚ), 1]], [[2, 3]]] =
        [[[1, 0], [3, 2]]] from rfl] at hcontra
  norm_num at hcontra

/-- `jnp.mean(xs, where=mask)`: the sum of the selected entries divided by
the number of selected entries (`ℚ` division; the all-false mask gives
`0/0 = 0` here where jnp gives NaN — no claim depends on that case). -/
def meanWhere (xs : List ℚ) (mask : List Bool) : ℚ :=
  (List.zipWith (fun x m => if m then x else 0) xs mask).sum /
    ((mask.count true : ℕ) : ℚ)

/-- `jnp.clip(x, lo, hi)`. -/
def clipQ (x lo hi : ℚ) : ℚ := min hi (max lo x)

/-- `xs.mean()` (unmasked), used by the advantage standardization. -/
def meanQ (xs : List ℚ) : ℚ := xs.sum / ((xs.length : ℕ) : ℚ)

/-- The element-wise value-loss array of `_loss_fn` lines 112-116:
`max((value - targets)^2, (value_pred_clipped - targets)^2)` with
`value_pred_clipped = old_value + clip(value - old_value, ±clip_eps)`. -/
def valueLossPointwise (clipEps : ℚ) (oldValue value targets : List ℚ) :
    List ℚ :=
  let vpc := List.zipWith
    (fun ov v => ov + clipQ (v - ov) (-clipEps) clipEps) oldValue value
  let vl := List.zipWith (fun v t => (v - t) ^ 2) value targets
  let vlc := List.zipWith (fun v t => (v - t) ^ 2) vpc targets
  List.zipWith max vl vlc

/-- `value_loss` of `_loss_fn` lines 116-117:
`0.5 * maximum(...).mean(where=(1 - traj_batch.done))`. -/
def valueLoss (clipEps : ℚ) (oldValue value targets : List ℚ)
    (done : List Bool) : ℚ :=
  (1 / 2) * meanWhere (valueLossPointwise clipEps oldValue value targets)
    (done.map not)

/-- The minibatch advantage standardization of `_loss_fn` line 121:
`(gae - gae.mean()) / (gae.std() + 1e-8)`; `std` (a square root) is not
`ℚ`-definable, so it is an explicit function parameter. -/
def standardize (stdFn : List ℚ → ℚ) (gae : List ℚ) : List ℚ :=
  gae.map (fun x => (x - meanQ gae) / (stdFn gae + 1 / 100000000))

/-- The element-wise actor-loss array of `_loss_fn` lines 122-127:
`-(min(ratio * gae, clip(ratio, 1±clip_eps) * gae))`. -/
def actorLossPointwise (clipEps : ℚ) (ratio gaeStd : List ℚ) : List ℚ :=
  List.zipWith
    (fun r g => -(min (r * g) (clipQ r (1 - clipEps) (1 + clipEps) * g)))
    ratio gaeStd

/-- `loss_actor` of `_loss_fn` line 128. -/
def actorLoss (clipEps : ℚ) (stdFn : List ℚ → ℚ) (ratio gae : List ℚ)
    (done : List Bool) : ℚ :=
  meanWhere (actorLossPointwise clipEps ratio (standardize stdFn gae))
    (done.map not)

/-- `entropy` of `_loss_fn` line 129: the per-timestep entropies reduced by
the same masked mean. -/
def entropyTerm (ent : List ℚ) (done : List Bool) : ℚ :=
  meanWhere ent (done.map not)

/-- `total_loss` of `_loss_fn` lines 131-134. -/
def totalLoss (clipEps vfCoef entCoef : ℚ) (stdFn : List ℚ → ℚ)
    (oldValue value targets ratio gae ent : List ℚ) (done : List Bool) : ℚ :=
  actorLoss clipEps stdFn ratio gae done
    + vfCoef * valueLoss clipEps oldValue value targets done
    - entCoef * entropyTerm ent done

lemma zipWith_set_left (f : α → β → γ) (d : β) (xs : List α) (ys : List β)
    (i : ℕ) (a : α) :
    List.zipWith f (xs.set i a) ys =
      (List.zipWith f xs ys).set i (f a (ys.getD i d)) := by
  induction xs generalizing ys i with
  | nil => simp
  | cons x xs ih =>
    cases ys with
    | nil => simp
    | cons y ys =>
      cases i with
      | zero => simp [List.getD_cons_zero]
      | succ i => simp [List.getD_cons_succ, ih ys i]

lemma zipWith_set_right (f : α → β → γ) (d : α) (xs : List α) (ys : List β)
    (i : ℕ) (b : β) :
    List.zipWith f xs (ys.set i b) =
      (List.zipWith f xs ys).set i (f (xs.getD i d) b) := by
  induction xs generalizing ys i with
  | nil => simp
  | cons x xs ih =>
    cases ys with
    | nil => simp
    | cons y ys =>
      cases i with
      | zero => simp [List.getD_cons_zero]
      | succ i => simp [List.getD_cons_succ, ih ys i]

lemma zipWith_set_both (f : α → β → γ) (xs : List α)
    (ys : List β) (i : ℕ) (a : α) (b : β) :
    List.zipWith f (xs.set i a) (ys.set i b) =
      (List.zipWith f xs ys).set i (f a b) := by
  rw [zipWith_set_left f b, zipWith_set_right f a, List.set_set]
  by_cases hi : i < ys.length
  · rw [List.getD_eq_getElem _ _ (by simpa using hi)]
    simp [List.getElem_set_self]
  · push_neg at hi
    have hlen : (List.zipWith f xs ys).length ≤ i := by
      simp only [List.length_zipWith]
      exact le_trans (Nat.min_le_right _ _) hi
    rw [List.set_eq_of_length_le hlen, List.set_eq_of_length_le hlen]

lemma sum_maskedWhere_set (xs : List ℚ) (mask : List Bool) (i : ℕ) (a : ℚ)
    (h : mask.getD i true = false) :
    (List.zipWith (fun x m => if m then x else 0) (xs.set i a) mask).sum =
      (List.zipWith (fun x m => if m then x else 0) xs mask).sum := by
  induction xs generalizing mask i with
  | nil => simp
  | cons x xs ih =>
    cases mask with
    | nil => simp
    | cons m ms =>
      cases i with
      | zero =>
        simp only [List.getD_cons_zero] at h
        simp [h]
      | succ i =>
        simp only [List.getD_cons_succ] at h
        simp [ih ms i h]

lemma meanWhere_set (xs : List ℚ) (mask : List Bool) (i : ℕ) (a : ℚ)
    (h : mask.getD i true = false) :
    meanWhere (xs.set i a) mask = meanWhere xs mask := by
  unfold meanWhere
  rw [sum_maskedWhere_set xs mask i a h]

lemma mask_not_getD (done : List Bool) (i : ℕ)
    (h : done.getD i false = true) : (done.map not).getD i true = false := by
  induction done generalizing i with
  | nil => simp at h
  | cons d ds ih =>
    cases i with
    | zero => simp_all
    | succ i =>
      simp only [List.getD_cons_succ] at h
      simpa using ih i h

/-- C4: a timestep whose per-agent done flag is true contributes exactly
zero to the policy-loss mean, the value-loss mean and the entropy mean of
`_loss_fn`: every reduction is `mean(where=(1 - traj_batch.done))`, so
replacing the per-timestep raw inputs of the loss at such a timestep by
arbitrary values changes none of the three reductions. -/
theorem C4_done_timesteps_masked_out (clipEps : ℚ) (stdFn : List ℚ → ℚ)
    (oldValue value targets ratio gae ent : List ℚ) (done : List Bool)
    (i : ℕ) (a b c d e : ℚ) (hdone : done.getD i false = true) :
    valueLoss clipEps (oldValue.set i a) (value.set i b) (targets.set i c)
        done = valueLoss clipEps oldValue value targets done
      ∧ actorLoss clipEps stdFn (ratio.set i d) gae done =
          actorLoss clipEps stdFn ratio gae done
      ∧ entropyTerm (ent.set i e) done = entropyTerm ent done := by
  have hmask := mask_not_getD done i hdone
  refine ⟨?_, ?_, ?_⟩
  · simp only [valueLoss, valueLossPointwise, zipWith_set_both]
    rw [meanWhere_set _ _ _ _ hmask]
  · simp only [actorLoss, actorLossPointwise]
    rw [zipWith_set_left _ (0 : ℚ), meanWhere_set _ _ _ _ hmask]
  · simp only [entropyTerm]
    rw [meanWhere_set _ _ _ _ hmask]

/-- Witness for C4 at a concrete minibatch of length 2 whose second
timestep is done: overwriting the raw loss inputs there changes nothing. -/
theorem C4_done_timesteps_masked_out_witness :
    valueLoss (1/5) ([1, 2].set 1 100) ([3, 4].set 1 101) ([5, 6].set 1 102)
        [false, true] = valueLoss (1/5) [1, 2] [3, 4] [5, 6] [false, true]
      ∧ actorLoss (1/5) meanQ ([7, 8].set 1 103) [9, 10] [false, true] =
          actorLoss (1/5) meanQ [7, 8] [9, 10] [false, true]
      ∧ entropyTerm ([11, 12].set 1 104) [false, true] =
          entropyTerm [11, 12] [false, true] :=
  C4_done_timesteps_masked_out (1/5) meanQ [1, 2] [3, 4] [5, 6] [7, 8]
    [9, 10] [11, 12] [false, true] 1 100 101 102 103 104 (by decide)

/-- The config fields of `PPO_RNN.update` that the update dataflow needs. -/
structure PPOConfig where
  numEnvs : ℕ
  numMinibatches : ℕ
  updateEpochs : ℕ
  gamma : ℚ
  gaeLambda : ℚ

/-- `_calculate_gae` vectorised over one environment axis: the jax scan is
elementwise over the batch, i.e. an independent scalar GAE per environment
column (`grid` is time-major `T×E`, `lastVals` has one bootstrap value per
environment). -/
def calculateGaeBatch2 (gamma lam : ℚ) (grid : List (List Transition))
    (lastVals : List ℚ) : List (List ℚ) :=
  swapaxes01 (List.zipWith (fun col lv => calculateGae gamma lam col lv)
    (swapaxes01 grid) lastVals)

/-- `_calculate_gae` over a `(T, num_agents, NUM_ENVS)` trajectory with an
`(num_agents, NUM_ENVS)` bootstrap value: elementwise over both batch
axes. -/
def calculateGaeBatch3 (gamma lam : ℚ)
    (traj : List (List (List Transition))) (lastVal : List (List ℚ)) :
    List (List (List ℚ)) :=
  swapaxes01 (List.zipWith (fun grid lv => calculateGaeBatch2 gamma lam grid lv)
    (swapaxes01 traj) lastVal)

/-- Elementwise sum of two `(T, A, E)` arrays
(`advantages + traj_batch.value`, line 92, batched). -/
def addGrids3 (x y : List (List (List ℚ))) : List (List (List ℚ)) :=
  List.zipWith (fun a b => List.zipWith (fun r s =>
    List.zipWith (· + ·) r s) a b) x y

/-- The value leaf of a batched trajectory. -/
def valueGrid3 (traj : List (List (List Transition))) :
    List (List (List ℚ)) :=
  traj.map (fun st => st.map (fun row => row.map Transition.value))

/-- Slice `k` of the `NUM_MINIBATCHES` equal chunks of a list
(`jnp.reshape(x, [x.shape[0], NUM_MINIBATCHES, -1] + ...)` followed by
picking minibatch `k`). -/
def chunkOf (m k : ℕ) (row : List α) : List α :=
  (row.drop (k * (row.length / m))).take (row.length / m)

/-- `axis=1` slice `k` of the minibatch split (lines 157-159). -/
def minibatchSlice (m k : ℕ) (x : List (List β)) : List (List β) :=
  x.map (chunkOf m k)

/-- One minibatch as unpacked by `_update_minbatch` (line 98). -/
structure MBatch where
  init_hstate : List (List (List ℚ))
  traj : List (List (List Transition))
  advantages : List (List ℚ)
  targets : List (List ℚ)

/-- The runner state unpacked and repacked by `update`
(lines 65 and 178). -/
structure RunnerState (TS ES O D K : Type) where
  train_state : TS
  env_state : ES
  last_obs : O
  last_done : D
  hstate : List (List ℚ)
  key : K

/-- The collaborator functions `update` calls: jax's key split and
permutation (pure functions of the key), the network value head used for
the bootstrap value (lines 67-72), and the fused
`value_and_grad(_loss_fn)` + `apply_gradients` minibatch step
(lines 138-140, optax/flax library code). -/
structure UpdateDeps (TS O D K : Type) where
  splitKey : K → K × K
  permutation : K → ℕ → List ℕ
  lastVal : TS → List (List ℚ) → O → D → List (List ℚ)
  minibatchStep : TS → MBatch → TS

/-- The `update_state` tuple threaded through `_update_epoch`
(lines 143 and 165-171). -/
structure UpdState (TS K : Type) where
  train_state : TS
  hstate : List (List ℚ)
  traj : List (List (List Transition))
  advantages : List (List (List ℚ))
  targets : List (List (List ℚ))
  key : K

/-- `_update_epoch` (`PPO_RNN.py` lines 96-172), for the single-agent
(`num_agents = 1`) layout: split the key, reshape the hidden state to
`(1, NUM_ENVS, -1)`, draw a permutation of the `NUM_ENVS` indices, swap the
outer axes of the trajectory, gather `axis=1` of every batch leaf with the
permutation (the advantage/target leaves got their unit agent axis squeezed
away first), split into `NUM_MINIBATCHES` slices scanned by
`_update_minbatch`, then carry `(train_state, init_hstate.squeeze(),
trajectory swapped back, advantages, targets, key)` to the next epoch. -/
def updateEpochStep {TS O D K : Type} (cfg : PPOConfig)
    (deps : UpdateDeps TS O D K) (s : UpdState TS K) : UpdState TS K :=
  let ks := deps.splitKey s.key
  let initHstate := [s.hstate]
  let permutation := deps.permutation ks.2 cfg.numEnvs
  let trajSw := swapaxes01 s.traj
  let shIh := takeAxis1 ([] : List ℚ) permutation initHstate
  let shTraj := takeAxis1 ([] : List Transition) permutation trajSw
  let shAdv := takeAxis1 (0 : ℚ) permutation
    ((swapaxes01 s.advantages).headD [])
  let shTgt := takeAxis1 (0 : ℚ) permutation
    ((swapaxes01 s.targets).headD [])
  let minibatches := (List.range cfg.numMinibatches).map (fun k =>
    MBatch.mk (minibatchSlice cfg.numMinibatches k shIh)
      (minibatchSlice cfg.numMinibatches k shTraj)
      (minibatchSlice cfg.numMinibatches k shAdv)
      (minibatchSlice cfg.numMinibatches k shTgt))
  let ts := minibatches.foldl deps.minibatchStep s.train_state
  ⟨ts, initHstate.headD [], swapaxes01 trajSw, s.advantages, s.targets, ks.1⟩

/-- `PPO_RNNAgent.update` (`PPO_RNN.py` lines 62-180): unpack the runner
state, compute the bootstrap value and the advantages/targets, run
`UPDATE_EPOCHS` epochs of `_update_epoch`, and repack
`(train_state, env_state, last_obs, last_done, hstate, key)`. -/
def PPOupdate {TS ES O D K : Type} (cfg : PPOConfig)
    (deps : UpdateDeps TS O D K) (rs : RunnerState TS ES O D K)
    (traj : List (List (List Transition))) : RunnerState TS ES O D K :=
  let lastVal := deps.lastVal rs.train_state rs.hstate rs.last_obs
    rs.last_done
  let advantages := calculateGaeBatch3 cfg.gamma cfg.gaeLambda traj lastVal
  let targets := addGrids3 advantages (valueGrid3 traj)
  let final := (updateEpochStep cfg deps)^[cfg.updateEpochs]
    ⟨rs.train_state, rs.hstate, traj, advantages, targets, rs.key⟩
  ⟨final.train_state, rs.env_state, rs.last_obs, rs.last_done,
    final.hstate, final.key⟩

lemma updateEpochStep_hstate {TS O D K : Type} (cfg : PPOConfig)
    (deps : UpdateDeps TS O D K) (s : UpdState TS K) :
    (updateEpochStep cfg deps s).hstate = s.hstate := rfl

lemma updateEpochStep_iterate_hstate {TS O D K : Type} (cfg : PPOConfig)
    (deps : UpdateDeps TS O D K) (n : ℕ) (s : UpdState TS K) :
    ((updateEpochStep cfg deps)^[n] s).hstate = s.hstate := by
  induction n with
  | zero => rfl
  | succ n ih =>
    rw [Function.iterate_succ_apply', updateEpochStep_hstate]
    exact ih

/-- C9: `update` only rewrites the train state and the rng key of the
runner state: the returned `env_state`, `last_obs` and `last_done` are
exactly the inputs, and the returned hidden state equals the input hidden
state (each epoch only reshapes it to `(1, NUM_ENVS, -1)` and squeezes it
back). -/
theorem C9_update_frame {TS ES O D K : Type} (cfg : PPOConfig)
    (deps : UpdateDeps TS O D K) (rs : RunnerState TS ES O D K)
    (traj : List (List (List Transition))) :
    (PPOupdate cfg deps rs traj).env_state = rs.env_state
      ∧ (PPOupdate cfg deps rs traj).last_obs = rs.last_obs
      ∧ (PPOupdate cfg deps rs traj).last_done = rs.last_done
      ∧ (PPOupdate cfg deps rs traj).hstate = rs.hstate :=
  ⟨rfl, rfl, rfl, updateEpochStep_iterate_hstate cfg deps cfg.updateEpochs _⟩

/-- C6: the embedded `update` is a pure function of the runner state and
the trajectory batch (randomness enters only through the explicit rng key
inside the runner state, and every collaborator — key split, permutation,
network apply, gradient step — is an explicit function): bit-identical
inputs give bit-identical outputs, whatever those collaborators are. -/
theorem C6_update_deterministic {TS ES O D K : Type} (cfg : PPOConfig)
    (deps : UpdateDeps TS O D K) (rs1 rs2 : RunnerState TS ES O D K)
    (traj1 traj2 : List (List (List Transition)))
    (hrs : rs1 = rs2) (htraj : traj1 = traj2) :
    PPOupdate cfg deps rs1 traj1 = PPOupdate cfg deps rs2 traj2 := by
  rw [hrs, htraj]

/-- A zero transition, for concrete instantiations. -/
def dummyTransition : Transition := ⟨false, false, 0, 0, 0, 0, []⟩

/-- A tiny concrete config: 2 environments, 1 minibatch, 1 epoch. -/
def cfgDemo : PPOConfig := ⟨2, 1, 1, 99/100, 95/100⟩

/-- Concrete collaborators over `TS = O = D = ℚ`, `K = ℕ`. -/
def depsDemo : UpdateDeps ℚ ℚ ℚ ℕ :=
  ⟨fun k => (k + 1, 2 * k), fun _ n => (List.range n).reverse,
   fun ts _ _ _ => [[ts, ts]], fun ts _ => ts + 1⟩

/-- A concrete runner state with rng key `k`. -/
def rsDemo (k : ℕ) : RunnerState ℚ ℚ ℚ ℚ ℕ := ⟨0, 0, 0, 0, [[0], [0]], k⟩

/-- A concrete one-step, one-agent, two-environment trajectory. -/
def trajDemo : List (List (List Transition)) :=
  [[[dummyTransition, dummyTransition]]]

/-- Witness for C6: two bit-identical inputs (the keys `2 + 3` and `5`)
give identical updates. -/
theorem C6_update_deterministic_witness :
    PPOupdate cfgDemo depsDemo (rsDemo (2 + 3)) trajDemo =
      PPOupdate cfgDemo depsDemo (rsDemo 5) trajDemo :=
  C6_update_deterministic cfgDemo depsDemo (rsDemo (2 + 3)) (rsDemo 5)
    trajDemo trajDemo rfl rfl

/-- The runner-state tuple of `run_train` (`environment_loop.py`
lines 45-46): the graph-state slot holds the output of the single initial
`env.reset`. -/
structure LoopState (TS ES O D HS GS K : Type) where
  train_state : TS
  env_state : ES
  last_obs : O
  last_done : D
  hstate : HS
  graph_state : GS
  key : K

/-- The collaborators of the training loop: `actor.act`, jax's key split,
the vectorised `env.step` (which consumes and returns a graph state), and
`actor.update` on the 6-tuple `update_state`. -/
structure LoopDeps (TS ES O D HS GS K A : Type) where
  act : TS → HS → O → D → K → HS × A × K
  splitKey : K → K × K
  envStep : K → ES → A → GS → O × ES × D × GS
  agentUpdate : TS × ES × O × D × HS × K → TS × ES × O × D × HS × K

/-- `_run_episode_step` (`environment_loop.py` lines 51-91): act, split the
key, step the environment — threading the graph state through the step —
and carry `(train_state, env_state, obs, done_batch, hstate,
env_graph_state, key)`. -/
def runEpisodeStep {TS ES O D HS GS K A : Type}
    (deps : LoopDeps TS ES O D HS GS K A)
    (s : LoopState TS ES O D HS GS K) : LoopState TS ES O D HS GS K :=
  let acted := deps.act s.train_state s.hstate s.last_obs s.last_done s.key
  let ks := deps.splitKey acted.2.2
  let stepped := deps.envStep ks.1 s.env_state acted.2.1 s.graph_state
  ⟨s.train_state, stepped.2.1, stepped.1, stepped.2.2.1, acted.1,
    stepped.2.2.2, ks.1⟩

/-- `_run_update` (`environment_loop.py` lines 48-121): run the
`NUM_STEPS`-step rollout, call `actor.update`, and repack the runner state —
whose graph-state slot is the closure-captured `graph_state` of line 43
(`gs0` here), NOT the `env_graph_state` advanced during the rollout
(line 121). -/
def runUpdateCycle {TS ES O D HS GS K A : Type}
    (deps : LoopDeps TS ES O D HS GS K A) (numSteps : ℕ) (gs0 : GS)
    (su : LoopState TS ES O D HS GS K × ℕ) :
    LoopState TS ES O D HS GS K × ℕ :=
  let rolled := (runEpisodeStep deps)^[numSteps] su.1
  let upd := deps.agentUpdate (rolled.train_state, rolled.env_state,
    rolled.last_obs, rolled.last_done, rolled.hstate, rolled.key)
  (⟨upd.1, rolled.env_state, upd.2.2.1, upd.2.2.2.1, rolled.hstate, gs0,
    upd.2.2.2.2.2⟩, su.2 + 1)

/-- `train` (`environment_loop.py` lines 28-125): `NUM_UPDATES` cycles of
`_run_update`, started from the runner state built around the initial
reset's graph state. -/
def runTrainLoop {TS ES O D HS GS K A : Type}
    (deps : LoopDeps TS ES O D HS GS K A) (numSteps numUpdates : ℕ)
    (rs0 : LoopState TS ES O D HS GS K) :
    LoopState TS ES O D HS GS K × ℕ :=
  (runUpdateCycle deps numSteps rs0.graph_state)^[numUpdates] (rs0, 0)

/-- C10: the graph state carried into every update cycle is the one
produced by the single initial `env.reset`: `_run_update` returns the
closure-captured initial `graph_state`, not the `env_graph_state` advanced
during the rollout, so after any number of cycles the runner state's
graph-state slot still holds the initial value — even though each rollout
step does thread an updated graph state internally. -/
theorem C10_graph_state_pinned_to_initial_reset {TS ES O D HS GS K A : Type}
    (deps : LoopDeps TS ES O D HS GS K A) (numSteps : ℕ)
    (rs0 : LoopState TS ES O D HS GS K) :
    (∀ k : ℕ,
      ((runUpdateCycle deps numSteps rs0.graph_state)^[k]
        (rs0, 0)).1.graph_state = rs0.graph_state)
      ∧ ∀ numUpdates : ℕ,
          (runTrainLoop deps numSteps numUpdates rs0).1.graph_state =
            rs0.graph_state := by
  have hmain : ∀ k : ℕ,
      ((runUpdateCycle deps numSteps rs0.graph_state)^[k]
        (rs0, 0)).1.graph_state = rs0.graph_state := by
    intro k
    induction k with
    | zero => rfl
    | succ k ih => rw [Function.iterate_succ_apply']; rfl
  exact ⟨hmain, fun n => hmain n⟩
